import Mathlib

/-!
Shallow embedding of the fyne widget-layer code under verification:
`widget/menu_item.go` (menu items, submenu activation and positioning,
menu-item renderer min-size caching) and the GL menu bar file
(`menuBarAction.ToolbarObject`, `showMenu`), together with the button
colour/tap logic described by the specification.

Geometry uses `Int` coordinates, mirroring the toolkit's `int`-based
`fyne.Position` / `fyne.Size` of this code base.
-/

namespace Fyne

/-- Embedding of `fyne.Position`: a pair of `int` coordinates. -/
structure Pos where
  x : Int
  y : Int
deriving DecidableEq, Repr

/-- Embedding of `fyne.Size`. -/
structure Size where
  width : Int
  height : Int
deriving DecidableEq, Repr

/-- Embedding of `Position.Add`. -/
def Pos.add (a b : Pos) : Pos := ⟨a.x + b.x, a.y + b.y⟩

/-- Embedding of `Size.Add`. -/
def Size.add (a b : Size) : Size := ⟨a.width + b.width, a.height + b.height⟩

/-- Embedding of `Size.IsZero`. -/
def Size.isZero (s : Size) : Bool := s.width == 0 && s.height == 0

/-!
### Submenu positioning (`menuItem.updateChildPosition`, menu_item.go 151-171)

The function computes the child menu's position `cp` relative to the item.
Defaults: `cp = (itemSize.Width, -theme.Padding())`.  When a canvas is
available, the X coordinate is adjusted on right-edge overflow (flip left if
there is room, else clamp to the canvas right edge) and the Y coordinate is
adjusted on bottom-edge overflow.
-/

/-- Embedding of `menuItem.updateChildPosition`.  `canvasSize = none`
corresponds to `d.CanvasForObject(i) == nil`, in which case only the default
position is used.  `absPos` is `d.AbsolutePositionForObject(i)`. -/
def updateChildPosition (itemSize childSize : Size) (absPos : Pos)
    (canvasSize : Option Size) (padding : Int) : Pos :=
  let cp : Pos := ⟨itemSize.width, -padding⟩
  match canvasSize with
  | none => cp
  | some cs =>
    let cpx :=
      if absPos.x + itemSize.width + childSize.width > cs.width then
        if absPos.x - childSize.width ≥ 0 then
          -childSize.width
        else
          cs.width - absPos.x - childSize.width
      else cp.x
    let cpy :=
      if absPos.y + childSize.height - padding > cs.height then
        cs.height - absPos.y - childSize.height
      else cp.y
    ⟨cpx, cpy⟩

/-!
### Button colour resolution (`buttonRenderer.buttonColor`)

The renderer resolves the background colour with a `switch` whose cases are,
in order: `Disabled()`, `Importance == HighImportance`, `hovered`, default.
Theme colours are represented symbolically by which theme function supplies
them.
-/

/-- Importance levels of a button (`ButtonImportance`): `medium` is the Go
zero value `MediumImportance`. -/
inductive ButtonImportance where
  | medium
  | high
  | low
deriving DecidableEq, Repr, Fintype

/-- Symbolic identity of the theme colour returned by
`buttonRenderer.buttonColor`: which theme function supplied it. -/
inductive ThemeColorId where
  | disabledButton
  | primary
  | hover
  | button
deriving DecidableEq, Repr

/-- Embedding of `buttonRenderer.buttonColor`: the `switch` on
`(Disabled(), Importance, hovered)`, cases tried in source order. -/
def buttonColor (disabled : Bool) (importance : ButtonImportance)
    (hovered : Bool) : ThemeColorId :=
  if disabled then .disabledButton
  else if importance == .high then .primary
  else if hovered then .hover
  else .button

/-- Background colour as seen on a given device class.  The source
`buttonRenderer.buttonColor` reads only the button's own state and never
consults `fyne.CurrentDevice()`, so the device argument is unused. -/
def resolvedBackground (isMobile : Bool) (disabled : Bool)
    (importance : ButtonImportance) (hovered : Bool) : ThemeColorId :=
  buttonColor disabled importance hovered

/-!
### Button tap (`Button.Tapped`, `Button.tapAnimation`)

`Tapped` returns immediately when `Disabled()`.  Otherwise it calls
`tapAnimation` (which starts the ripple animation unless `tapBG == nil`,
stopping a pre-existing animation handle first), refreshes, and invokes
`OnTapped` when set.
-/

/-- Observable effects of one `Button.Tapped` call. -/
structure ButtonTapEffects where
  animationStarted : Bool
  onTappedInvoked : Bool
deriving DecidableEq, Repr

/-- Embedding of `Button.Tapped`.  `hasTapBG` is `tapBG != nil`,
`hasAnimHandle` is `tapAnim != nil` (an existing handle is stopped and
restarted, which still counts as starting the animation), `hasOnTapped` is
`OnTapped != nil`. -/
def buttonTapped (disabled hasTapBG hasAnimHandle hasOnTapped : Bool) :
    ButtonTapEffects :=
  if disabled then ⟨false, false⟩
  else ⟨hasTapBG, hasOnTapped⟩

/-!
### Menu bar (`menuBarAction.ToolbarObject`, `showMenu`)

The button's `OnTapped` closure computes
`pos = button.Position().Add(fyne.NewPos(0, button.Size().Height))` and calls
`showMenu(m.menu, pos, m.canvas)`, which creates a popup menu and moves it to
`pos`.  The menu reference is abstracted as a `Nat` identifier.
-/

/-- Embedding of `showMenu`: the popup displays the given menu anchored at
`pos` (`pop.Move(pos)`); the result is the popup's menu and position. -/
def showMenu (menu : Nat) (pos : Pos) : Nat × Pos :=
  (menu, pos)

/-- Embedding of the `OnTapped` closure installed by
`menuBarAction.ToolbarObject`. -/
def menuBarActionTapped (menu : Nat) (buttonPos : Pos) (buttonSize : Size) :
    Nat × Pos :=
  showMenu menu (buttonPos.add ⟨0, buttonSize.height⟩)

/-!
### Menu / menu-item interaction state (menu_item.go 74-149)

A `Menu` holds an ordered list of `menuItem` children; item `i` has a child
submenu exactly when `hasChild.getD i false` (`i.Item.ChildMenu != nil`,
hence, after `CreateRenderer`, `i.child != nil`).  The state tracks, for the
parent menu, the `activeChild` reference (as the index of the item whose
child menu it is; `none` is the Go `nil`), the visibility flag of each item's
child menu (`Show` / `Hide` on the base widget), each item's `hovered` flag,
each child menu's own active-grandchild reference (`i.child.activeChild`,
touched by `i.child.DeactivateChild()`), and whether each child menu still
has zero size (it starts hidden at zero size and is resized to its minimum
size on first activation).
-/

/-- Total list indexing with a default, the shape in which the embedding
reads the per-item flags (`lookupD l i d` is entry `i` of `l`, or `d` when
out of range). -/
def lookupD {α : Type} : List α → Nat → α → α
  | [], _, d => d
  | a :: _, 0, _ => a
  | _ :: t, n + 1, d => lookupD t n d

/-- Interaction state of one `Menu` and its `menuItem` children. -/
structure MenuState where
  activeChild : Option Nat
  childVisible : List Bool
  hovered : List Bool
  childActive : List (Option Nat)
  childSizeZero : List Bool
deriving DecidableEq, Repr

/-- Modelled from the spec: `Menu.DeactivateChild` is in this repository but
outside the provided sources.  Per the spec's mutual-exclusion contract
("any sibling's active submenu is deactivated first"; "at most one child
submenu of a Menu is visible at a time"), it hides the currently active
child submenu, if any, and clears the active-child reference. -/
def menuDeactivateChild (s : MenuState) : MenuState :=
  match s.activeChild with
  | none => s
  | some j => { s with activeChild := none, childVisible := s.childVisible.set j false }

/-- Embedding of `menuItem.activateChild` for item `i` (menu_item.go
132-149): deactivate the child menu's own active submenu; return early when
`Parent.activeChild == i.child` (pointer comparison: with no child this
compares against `nil`); otherwise deactivate the parent's active child and,
when the item has a child, resize it on first use (geometry handled by
`updateChildPosition`), record it as the parent's active child and show it. -/
def activateChild (hasChild : List Bool) (i : Nat) (s : MenuState) : MenuState :=
  let s1 :=
    if lookupD hasChild i false then
      { s with childActive := s.childActive.set i none }
    else s
  if s1.activeChild = (if lookupD hasChild i false then some i else none) then s1
  else
    let s2 := menuDeactivateChild s1
    if lookupD hasChild i false then
      let s3 :=
        if lookupD s2.childSizeZero i true then
          { s2 with childSizeZero := s2.childSizeZero.set i false }
        else s2
      { s3 with activeChild := some i, childVisible := s3.childVisible.set i true }
    else s2

/-- Embedding of `menuItem.MouseIn` (menu_item.go 77-81): set the hovered
flag, then `activateChild` (the trailing `Refresh` only redraws). -/
def mouseIn (hasChild : List Bool) (i : Nat) (s : MenuState) : MenuState :=
  activateChild hasChild i { s with hovered := s.hovered.set i true }

/-- Embedding of `menuItem.MouseOut` (menu_item.go 90-93): clear the hovered
flag (the trailing `Refresh` only redraws). -/
def mouseOut (i : Nat) (s : MenuState) : MenuState :=
  { s with hovered := s.hovered.set i false }

/-- Embedding of `menuItem.Tapped` (menu_item.go 119-130).  Returns the new
state together with `(actionInvoked, dismissed)`: with no action, mobile
devices toggle through `activateChild` and nothing is dismissed; with an
action, the action runs and `Parent.Dismiss()` fires. -/
def menuTapped (isMobile : Bool) (hasAction hasChild : List Bool) (i : Nat)
    (s : MenuState) : MenuState × Bool × Bool :=
  if lookupD hasAction i false then
    (s, true, true)
  else if isMobile then
    (activateChild hasChild i s, false, false)
  else
    (s, false, false)

/-- Initial state of a freshly built menu with `n` items: no active child,
every child menu hidden at zero size (`child.Hide()` in `CreateRenderer`),
nothing hovered. -/
def initState (n : Nat) : MenuState :=
  ⟨none, List.replicate n false, List.replicate n false,
    List.replicate n none, List.replicate n true⟩

/-- Fold a sequence of pointer-enter events over the menu state. -/
def applyMouseIns (hasChild : List Bool) (events : List Nat) (s : MenuState) :
    MenuState :=
  events.foldl (fun t i => mouseIn hasChild i t) s

/-- Number of `true` entries: how many child submenus are visible. -/
def countTrue (l : List Bool) : Nat :=
  (l.filter (fun b => b)).length

/-!
### Menu-item renderer minimum-size cache (menu_item.go 173-230)

`menuItemRenderer` keeps `minSize` and guards recomputation with
`minSizeUnchanged`, which compares the text object's `TextSize`, the icon's
width and the `lastThemePadding` field against the current theme.  `MinSize`
stores the computed size in `r.minSize` but updates none of the guard
fields; `Layout` sets the text size and the icon size from the theme;
`lastThemePadding` is never assigned anywhere in the source.  The label's
measured minimum size is abstracted by `measure`, a function of the theme
text size.
-/

/-- Theme parameters read by the menu-item renderer. -/
structure MITheme where
  textSize : Int
  iconInlineSize : Int
  padding : Int
deriving DecidableEq, Repr

/-- Mutable fields of `menuItemRenderer` relevant to `MinSize`:
`hasIcon` is `icon != nil`, `textSizeField` is `text.TextSize`, `iconWidth`
is `icon.Size().Width`, plus the cache fields `minSize` and
`lastThemePadding` (zero-valued on creation). -/
structure MenuItemRendererState where
  hasIcon : Bool
  textSizeField : Int
  iconWidth : Int
  minSize : Size
  lastThemePadding : Int
deriving DecidableEq, Repr

/-- Embedding of `menuItemRenderer.itemPadding`. -/
def itemPadding (th : MITheme) : Size :=
  ⟨th.padding * 4, th.padding * 2⟩

/-- Embedding of `menuItemRenderer.minSizeUnchanged` (menu_item.go 221-226). -/
def minSizeUnchanged (th : MITheme) (r : MenuItemRendererState) : Bool :=
  !r.minSize.isZero &&
    r.textSizeField == th.textSize &&
    (!r.hasIcon || r.iconWidth == th.iconInlineSize) &&
    r.lastThemePadding == th.padding

/-- Embedding of `menuItemRenderer.MinSize` (menu_item.go 204-215): return
the cache when `minSizeUnchanged`, else recompute from the label's measured
minimum size, the item padding and the icon inline size, storing the result
in `minSize` (and nothing else). -/
def rendererMinSize (measure : Int → Size) (th : MITheme)
    (r : MenuItemRendererState) : Size × MenuItemRendererState :=
  if minSizeUnchanged th r then
    (r.minSize, r)
  else
    let m := (measure th.textSize).add (itemPadding th)
    let m := if r.hasIcon then m.add ⟨th.iconInlineSize, 0⟩ else m
    (m, { r with minSize := m })

/-- Embedding of the theme-dependent field updates of
`menuItemRenderer.Layout` (menu_item.go 190-202): the text object's
`TextSize` is set from the theme and the icon, when present, is resized to
the icon inline size. -/
def rendererLayout (th : MITheme) (r : MenuItemRendererState) :
    MenuItemRendererState :=
  { r with
    textSizeField := th.textSize,
    iconWidth := if r.hasIcon then th.iconInlineSize else r.iconWidth }

/-!
### Helper lemmas for `lookupD` and `List.set`
-/

theorem lookupD_set_other {α : Type} (l : List α) {i j : Nat} (h : j ≠ i)
    (a d : α) : lookupD (l.set i a) j d = lookupD l j d := by
  induction l generalizing i j with
  | nil => rfl
  | cons b t ih =>
    cases i with
    | zero =>
      cases j with
      | zero => exact absurd rfl h
      | succ m => rfl
    | succ n =>
      cases j with
      | zero => rfl
      | succ m => exact ih (fun e => h (congrArg Nat.succ e))

theorem lookupD_set_false_self (l : List Bool) (i : Nat) :
    lookupD (l.set i false) i false = false := by
  induction l generalizing i with
  | nil => rfl
  | cons b t ih =>
    cases i with
    | zero => rfl
    | succ n => exact ih n

theorem lookupD_set_true_self (l : List Bool) {i : Nat} (h : i < l.length) :
    lookupD (l.set i true) i false = true := by
  induction l generalizing i with
  | nil => cases h
  | cons b t ih =>
    cases i with
    | zero => rfl
    | succ n => exact ih (Nat.lt_of_succ_lt_succ h)

theorem lookupD_set_true_elim (l : List Bool) {i j : Nat}
    (h : lookupD (l.set i true) j false = true) :
    j = i ∨ lookupD l j false = true := by
  by_cases hij : j = i
  · exact Or.inl hij
  · right
    rw [lookupD_set_other l hij] at h
    exact h

theorem lookupD_replicate_false (n j : Nat) :
    lookupD (List.replicate n false) j false = false := by
  induction n generalizing j with
  | zero => rfl
  | succ m ih =>
    cases j with
    | zero => rfl
    | succ k => exact ih k

theorem countTrue_cons_false (t : List Bool) :
    countTrue (false :: t) = countTrue t := by
  simp [countTrue]

theorem countTrue_cons_true (t : List Bool) :
    countTrue (true :: t) = countTrue t + 1 := by
  simp [countTrue]

theorem countTrue_eq_zero (t : List Bool)
    (h : ∀ m, lookupD t m false = false) : countTrue t = 0 := by
  induction t with
  | nil => rfl
  | cons b u ih =>
    have hb : b = false := h 0
    cases b with
    | true => cases hb
    | false =>
      rw [countTrue_cons_false]
      exact ih (fun m => h (m + 1))

theorem countTrue_le_one (l : List Bool)
    (h : ∀ j k, lookupD l j false = true → lookupD l k false = true → j = k) :
    countTrue l ≤ 1 := by
  induction l with
  | nil => simp [countTrue]
  | cons b t ih =>
    cases b with
    | false =>
      rw [countTrue_cons_false]
      exact ih (fun j k hj hk => Nat.succ.inj (h (j + 1) (k + 1) hj hk))
    | true =>
      rw [countTrue_cons_true]
      have ht : ∀ m, lookupD t m false = false := by
        intro m
        cases hv : lookupD t m false with
        | false => rfl
        | true => exact absurd (h (m + 1) 0 hv rfl) (Nat.succ_ne_zero m)
      rw [countTrue_eq_zero t ht]

/-!
### The mutual-exclusion invariant

`Inv` says every visible child submenu is the one referenced by
`activeChild`; it holds in the initial state and is preserved by the
pointer-enter handler, which yields the at-most-one-visible property.
-/

/-- Every visible child submenu is the active one. -/
def Inv (s : MenuState) : Prop :=
  ∀ j, lookupD s.childVisible j false = true → s.activeChild = some j

theorem inv_initState (n : Nat) : Inv (initState n) := by
  intro j hj
  rw [show (initState n).childVisible = List.replicate n false from rfl,
    lookupD_replicate_false] at hj
  cases hj

theorem deactivate_not_visible {s : MenuState} (h : Inv s) (m : Nat) :
    lookupD (menuDeactivateChild s).childVisible m false = false := by
  cases hac : s.activeChild with
  | none =>
    simp only [menuDeactivateChild, hac]
    cases hv : lookupD s.childVisible m false with
    | false => rfl
    | true =>
      have h2 := h m hv
      rw [hac] at h2
      cases h2
  | some j =>
    simp only [menuDeactivateChild, hac]
    by_cases hmj : m = j
    · subst hmj
      exact lookupD_set_false_self _ _
    · rw [lookupD_set_other _ hmj]
      cases hv : lookupD s.childVisible m false with
      | false => rfl
      | true =>
        have h2 := h m hv
        rw [hac] at h2
        exact absurd (Option.some.inj h2).symm hmj

theorem inv_activateChild (hc : List Bool) (i : Nat) {s : MenuState}
    (h : Inv s) : Inv (activateChild hc i s) := by
  intro j hj
  have hinvt : Inv { s with childActive := s.childActive.set i none } :=
    fun m hm => h m hm
  have hnv := deactivate_not_visible hinvt
  by_cases hci : lookupD hc i false = true
  · by_cases hac : s.activeChild = some i
    · simp only [activateChild, hci, hac, reduceIte] at hj ⊢
      rw [← hac]
      exact h j hj
    · by_cases hsz :
          lookupD (menuDeactivateChild
            { s with childActive := s.childActive.set i none }).childSizeZero i true = true
      · simp [activateChild, hci, hac, hsz] at hj ⊢
        rcases lookupD_set_true_elim _ hj with rfl | hvis
        · rfl
        · rw [hnv j] at hvis
          cases hvis
      · simp [activateChild, hci, hac, hsz] at hj ⊢
        rcases lookupD_set_true_elim _ hj with rfl | hvis
        · rfl
        · rw [hnv j] at hvis
          cases hvis
  · have hci2 : lookupD hc i false = false := by
      cases hv : lookupD hc i false with
      | false => rfl
      | true => exact absurd hv hci
    by_cases hac : s.activeChild = none
    · simp [activateChild, hci2, hac] at hj ⊢
      have h2 := h j hj
      rw [hac] at h2
      cases h2
    · simp [activateChild, hci2, hac] at hj ⊢
      rw [deactivate_not_visible h j] at hj
      cases hj

theorem inv_mouseIn (hc : List Bool) (i : Nat) {s : MenuState} (h : Inv s) :
    Inv (mouseIn hc i s) :=
  inv_activateChild hc i (fun j hj => h j hj)

theorem inv_applyMouseIns (hc : List Bool) (evs : List Nat) {s : MenuState}
    (h : Inv s) : Inv (applyMouseIns hc evs s) := by
  induction evs generalizing s with
  | nil => exact h
  | cons e t ih => exact ih (inv_mouseIn hc e h)

theorem inv_countTrue {s : MenuState} (h : Inv s) :
    countTrue s.childVisible ≤ 1 :=
  countTrue_le_one _ (fun j k hj hk => by
    have h1 := h j hj
    have h2 := h k hk
    rw [h1] at h2
    exact Option.some.inj h2)

/-- Claim C2: for every menu and every sequence of pointer-enter events on
its items, at most one child submenu is visible afterwards; activating one
child submenu first deactivates any previously active sibling. -/
theorem menu_at_most_one_submenu_visible (n : Nat) (hasChild : List Bool)
    (events : List Nat) :
    countTrue (applyMouseIns hasChild events (initState n)).childVisible ≤ 1 :=
  inv_countTrue (inv_applyMouseIns hasChild events (inv_initState n))

/-- Claim C7: pointer-exit clears only the hovered flag; the child-submenu
visibility flags, the active-child reference of the parent menu, and the
child menus own state are untouched by `MouseOut`. -/
theorem mouseOut_clears_only_hovered (i : Nat) (s : MenuState) :
    (mouseOut i s).childVisible = s.childVisible ∧
    (mouseOut i s).activeChild = s.activeChild ∧
    (mouseOut i s).childActive = s.childActive ∧
    (mouseOut i s).childSizeZero = s.childSizeZero ∧
    (mouseOut i s).hovered = s.hovered.set i false :=
  ⟨rfl, rfl, rfl, rfl, rfl⟩

/-- Claim C10: pointer-enter on a menu item without a child submenu
deactivates the currently active child submenu of the parent menu: the
active-child reference becomes `none` and the previously visible sibling
submenu is hidden. -/
theorem mouseIn_no_child_deactivates (hc : List Bool) (i : Nat)
    (s : MenuState) (hno : lookupD hc i false = false) :
    (mouseIn hc i s).activeChild = none ∧
    ∀ j, s.activeChild = some j →
      lookupD (mouseIn hc i s).childVisible j false = false := by
  cases hac : s.activeChild with
  | none =>
    refine ⟨?_, ?_⟩
    · simp [mouseIn, activateChild, hno, hac]
    · intro j hj
      cases hj
  | some j0 =>
    refine ⟨?_, ?_⟩
    · simp [mouseIn, activateChild, hno, hac, menuDeactivateChild]
    · intro j hj
      cases hj
      simp [mouseIn, activateChild, hno, hac, menuDeactivateChild]
      exact lookupD_set_false_self _ _

/-- Spot check of `mouseIn_no_child_deactivates` at a concrete menu: item 1
has a visible child submenu, then item 0 (no child) is hovered. -/
theorem mouseIn_no_child_deactivates_spot :
    (mouseIn [false, true] 0
      ⟨some 1, [false, true], [false, false], [none, none], [false, false]⟩).activeChild =
        none ∧
    lookupD (mouseIn [false, true] 0
      ⟨some 1, [false, true], [false, false], [none, none],
        [false, false]⟩).childVisible 1 false = false :=
  ⟨(mouseIn_no_child_deactivates [false, true] 0
      ⟨some 1, [false, true], [false, false], [none, none], [false, false]⟩ rfl).1,
   (mouseIn_no_child_deactivates [false, true] 0
      ⟨some 1, [false, true], [false, false], [none, none], [false, false]⟩ rfl).2 1 rfl⟩

/-!
### Claims about submenu positioning, buttons, the renderer cache and the
menu bar
-/

/-- Length of the visibility list is preserved by deactivation. -/
theorem menuDeactivateChild_childVisible_length (t : MenuState) :
    (menuDeactivateChild t).childVisible.length = t.childVisible.length := by
  cases hac : t.activeChild <;> simp [menuDeactivateChild, hac]

/-- Claim C1 (amended): the horizontal placement is as claimed (flip left on
right-edge overflow when the flipped submenu keeps a non-negative left edge,
else clamp the right edge to the canvas width, else place at the right of
the item), and the vertical offset is minus the theme padding only when the
submenu does not overflow the bottom edge; on bottom overflow the submenu is
shifted up so its bottom edge meets the canvas bottom. -/
theorem updateChildPosition_spec (itemSize childSize : Size) (absPos : Pos)
    (cs : Size) (padding : Int) (r : Pos)
    (hr : r = updateChildPosition itemSize childSize absPos (some cs) padding) :
    (absPos.x + itemSize.width + childSize.width > cs.width →
      absPos.x - childSize.width ≥ 0 → r.x = -childSize.width) ∧
    (absPos.x + itemSize.width + childSize.width > cs.width →
      absPos.x - childSize.width < 0 →
      absPos.x + r.x + childSize.width = cs.width) ∧
    (absPos.x + itemSize.width + childSize.width ≤ cs.width →
      r.x = itemSize.width) ∧
    (absPos.y + childSize.height - padding ≤ cs.height → r.y = -padding) ∧
    (absPos.y + childSize.height - padding > cs.height →
      absPos.y + r.y + childSize.height = cs.height) := by
  subst hr
  simp only [updateChildPosition]
  refine ⟨?_, ?_, ?_, ?_, ?_⟩ <;> intros <;> split_ifs <;> omega

/-- Concrete instances of `updateChildPosition_spec`, one per branch:
flip to the left, clamp to the right edge, default placement, default
vertical offset, and the bottom-overflow shift. -/
theorem updateChildPosition_spec_witness :
    (updateChildPosition ⟨50, 20⟩ ⟨30, 40⟩ ⟨40, 0⟩ (some ⟨100, 100⟩) 4).x = -30 ∧
    (40 : Int) + (updateChildPosition ⟨50, 20⟩ ⟨90, 40⟩ ⟨40, 0⟩ (some ⟨100, 100⟩) 4).x + 90 = 100 ∧
    (updateChildPosition ⟨50, 20⟩ ⟨30, 40⟩ ⟨0, 0⟩ (some ⟨100, 100⟩) 4).x = 50 ∧
    (updateChildPosition ⟨50, 20⟩ ⟨30, 40⟩ ⟨0, 0⟩ (some ⟨100, 100⟩) 4).y = -4 ∧
    (90 : Int) + (updateChildPosition ⟨50, 20⟩ ⟨30, 40⟩ ⟨0, 90⟩ (some ⟨100, 100⟩) 4).y + 40 = 100 :=
  ⟨(updateChildPosition_spec ⟨50, 20⟩ ⟨30, 40⟩ ⟨40, 0⟩ ⟨100, 100⟩ 4 _ rfl).1
      (by decide) (by decide),
   (updateChildPosition_spec ⟨50, 20⟩ ⟨90, 40⟩ ⟨40, 0⟩ ⟨100, 100⟩ 4 _ rfl).2.1
      (by decide) (by decide),
   (updateChildPosition_spec ⟨50, 20⟩ ⟨30, 40⟩ ⟨0, 0⟩ ⟨100, 100⟩ 4 _ rfl).2.2.1
      (by decide),
   (updateChildPosition_spec ⟨50, 20⟩ ⟨30, 40⟩ ⟨0, 0⟩ ⟨100, 100⟩ 4 _ rfl).2.2.2.1
      (by decide),
   (updateChildPosition_spec ⟨50, 20⟩ ⟨30, 40⟩ ⟨0, 90⟩ ⟨100, 100⟩ 4 _ rfl).2.2.2.2
      (by decide)⟩

/-- Counterexample to claim C1 as stated: with no right-edge overflow
(0 + 50 + 30 is at most 100) the claim predicts position (50, -4), the
placement right of the item with vertical offset minus the padding, but the
submenu would overflow the bottom edge, so the code shifts it up and returns
(50, -30). -/
theorem updateChildPosition_claim_counterexample :
    (0 : Int) + 50 + 30 ≤ 100 ∧
    updateChildPosition ⟨50, 20⟩ ⟨30, 40⟩ ⟨0, 90⟩ (some ⟨100, 100⟩) 4 ≠
      ⟨50, -4⟩ := by decide

/-- Claim C3: the background colour is a pure function of
(disabled, importance, hovered), with precedence disabled, then
high importance, then hovered, then the default; a disabled button yields
the disabled button colour for every combination of the other two flags. -/
theorem buttonColor_precedence :
    (∀ imp hov, buttonColor true imp hov = ThemeColorId.disabledButton) ∧
    (∀ hov, buttonColor false ButtonImportance.high hov = ThemeColorId.primary) ∧
    buttonColor false ButtonImportance.medium true = ThemeColorId.hover ∧
    buttonColor false ButtonImportance.low true = ThemeColorId.hover ∧
    buttonColor false ButtonImportance.medium false = ThemeColorId.button ∧
    buttonColor false ButtonImportance.low false = ThemeColorId.button := by
  decide

/-- Counterexample to claim C4 as stated: on a touch-only device a hovered,
enabled, medium-importance button does not resolve to the base button
colour (it resolves to the hover colour). -/
theorem touch_hover_color_counterexample :
    ¬ resolvedBackground true false ButtonImportance.medium true =
        ThemeColorId.button := by
  decide

/-- Claim C4 (amended): the resolved background colour never depends on the
device class; hovering changes nothing for high-importance or disabled
buttons, and a hovered, enabled, medium- or low-importance button resolves
to the hover colour on every device, touch-only devices included. -/
theorem resolvedBackground_device_independent :
    (∀ m1 m2 d imp hov,
      resolvedBackground m1 d imp hov = resolvedBackground m2 d imp hov) ∧
    (∀ m d hov1 hov2,
      resolvedBackground m d ButtonImportance.high hov1 =
        resolvedBackground m d ButtonImportance.high hov2) ∧
    (∀ m imp hov1 hov2,
      resolvedBackground m true imp hov1 = resolvedBackground m true imp hov2) ∧
    (∀ m, resolvedBackground m false ButtonImportance.medium true =
      ThemeColorId.hover) ∧
    (∀ m, resolvedBackground m false ButtonImportance.low true =
      ThemeColorId.hover) := by
  decide

/-- Claim C5: tapping a disabled button neither starts the tap animation
nor invokes the callback, whatever the callback and animation-handle
state. -/
theorem disabled_button_tap_noop :
    ∀ hasTapBG hasAnimHandle hasOnTapped,
      buttonTapped true hasTapBG hasAnimHandle hasOnTapped =
        ⟨false, false⟩ := by
  decide

/-- Counterexample to claim C6 as stated: on a mobile device, tapping the
actionless item 0 whose child submenu is already active does not deactivate
it; the child stays the active child and stays visible (the early return in
`activateChild` fires on `Parent.activeChild == i.child`). -/
theorem menu_tapped_mobile_toggle_counterexample :
    (menuTapped true [false] [true] 0
      ⟨some 0, [true], [false], [none], [false]⟩).1.activeChild = some 0 ∧
    lookupD (menuTapped true [false] [true] 0
      ⟨some 0, [true], [false], [none], [false]⟩).1.childVisible 0 false =
      true := by
  decide

/-- Claim C6 (amended): on a mobile device, tapping an actionless item with
a child submenu invokes no action and dismisses nothing; if the child was
not the active child it becomes active and visible, and if it was already
active the tap leaves the active-child reference and the visibility flags
unchanged (only the child menus own active submenu is deactivated). -/
theorem menu_tapped_mobile_activation (ha hc : List Bool) (i : Nat)
    (s : MenuState) (hna : lookupD ha i false = false)
    (hci : lookupD hc i false = true) (hlen : i < s.childVisible.length) :
    (menuTapped true ha hc i s).2.1 = false ∧
    (menuTapped true ha hc i s).2.2 = false ∧
    (s.activeChild = some i →
      (menuTapped true ha hc i s).1.activeChild = some i ∧
      (menuTapped true ha hc i s).1.childVisible = s.childVisible) ∧
    (s.activeChild ≠ some i →
      (menuTapped true ha hc i s).1.activeChild = some i ∧
      lookupD (menuTapped true ha hc i s).1.childVisible i false = true) := by
  refine ⟨?_, ?_, ?_, ?_⟩
  · simp [menuTapped, hna]
  · simp [menuTapped, hna]
  · intro hac
    refine ⟨?_, ?_⟩ <;> simp [menuTapped, hna, activateChild, hci, hac]
  · intro hac
    by_cases hsz : lookupD (menuDeactivateChild
        { s with childActive := s.childActive.set i none }).childSizeZero i true = true
    · refine ⟨?_, ?_⟩
      · simp [menuTapped, hna, activateChild, hci, hac, hsz]
      · simp [menuTapped, hna, activateChild, hci, hac, hsz]
        exact lookupD_set_true_self _ (by
          rw [menuDeactivateChild_childVisible_length]
          exact hlen)
    · refine ⟨?_, ?_⟩
      · simp [menuTapped, hna, activateChild, hci, hac, hsz]
      · simp [menuTapped, hna, activateChild, hci, hac, hsz]
        exact lookupD_set_true_self _ (by
          rw [menuDeactivateChild_childVisible_length]
          exact hlen)

/-- Concrete instances of `menu_tapped_mobile_activation`: a mobile tap on
the actionless item 0 activates its inactive child submenu, and a second
tap leaves the already-active child untouched. -/
theorem menu_tapped_mobile_activation_witness :
    ((menuTapped true [false] [true] 0
        ⟨none, [false], [false], [none], [true]⟩).1.activeChild = some 0 ∧
      lookupD (menuTapped true [false] [true] 0
        ⟨none, [false], [false], [none], [true]⟩).1.childVisible 0 false =
        true) ∧
    ((menuTapped true [false] [true] 0
        ⟨some 0, [true], [false], [none], [false]⟩).1.activeChild = some 0 ∧
      (menuTapped true [false] [true] 0
        ⟨some 0, [true], [false], [none], [false]⟩).1.childVisible =
        [true]) :=
  ⟨(menu_tapped_mobile_activation [false] [true] 0
      ⟨none, [false], [false], [none], [true]⟩ rfl rfl (by decide)).2.2.2
      (by decide),
   (menu_tapped_mobile_activation [false] [true] 0
      ⟨some 0, [true], [false], [none], [false]⟩ rfl rfl (by decide)).2.2.1
      rfl⟩

/-- Claim C8: the cache guard fields are never written by `MinSize` or
`Layout` (`lastThemePadding` is never assigned anywhere in the source), so
starting from a fresh renderer under a theme with padding 4, even after a
first `MinSize` computation (which stores a non-zero size) and a `Layout`
pass, a second `MinSize` call under the unchanged theme finds
`minSizeUnchanged` false and recomputes instead of returning the cache. -/
theorem menuItem_minSize_cache_miss :
    ((rendererMinSize (fun ts => (⟨5 * ts, ts + 2⟩ : Size)) ⟨14, 20, 4⟩
        ⟨false, 0, 0, ⟨0, 0⟩, 0⟩).2.minSize.isZero = false) ∧
    (minSizeUnchanged ⟨14, 20, 4⟩
      (rendererLayout ⟨14, 20, 4⟩
        (rendererMinSize (fun ts => (⟨5 * ts, ts + 2⟩ : Size)) ⟨14, 20, 4⟩
          ⟨false, 0, 0, ⟨0, 0⟩, 0⟩).2) = false) ∧
    (∀ (measure : Int → Size) (th : MITheme) (r : MenuItemRendererState),
      (rendererMinSize measure th r).2.lastThemePadding = r.lastThemePadding ∧
      (rendererLayout th r).lastThemePadding = r.lastThemePadding) := by
  refine ⟨by decide, by decide, ?_⟩
  intro measure th r
  refine ⟨?_, rfl⟩
  by_cases h : minSizeUnchanged th r = true <;> simp [rendererMinSize, h]

/-- Claim C9: tapping a menu-bar button opens the popup menu anchored at
the button position plus (0, button height); in particular a button at
(10, 20) of height 30 anchors its menu at (10, 50). -/
theorem menuBar_tap_opens_below_button :
    (∀ (menu : Nat) (p : Pos) (s : Size),
      menuBarActionTapped menu p s = (menu, ⟨p.x, p.y + s.height⟩)) ∧
    menuBarActionTapped 7 ⟨10, 20⟩ ⟨80, 30⟩ = (7, ⟨10, 50⟩) := by
  refine ⟨?_, by decide⟩
  intro menu p s
  simp [menuBarActionTapped, showMenu, Pos.add]

end Fyne
